import Mathlib

/-!
Verification of the nclint NetCDF file checker (nclint.py).

The program is shallowly embedded: a NetCDF file handle is modelled as a
structure carrying the file-level attribute mapping, the variable mapping,
the dimension names, and the two derived nchelpers properties that the
processability check probes. Array data is modelled along the leftmost
axis as a list of layers, each layer either a plain array or a masked
array carrying its (flattened) mask. Fallible Python code (indexing that
can raise IndexError, dictionary lookup that can raise KeyError, the file
open that can raise IOError) is embedded with Option / Except.
-/

namespace Nclint

/-- One layer (one index along the leftmost axis) of a variable, as numpy
returns it: either a plain ndarray or a MaskedArray with its mask, the
mask flattened to a list of booleans (true = element is masked). -/
inductive Layer where
  | plain
  | masked (mask : List Bool)
deriving DecidableEq

/-- A NetCDF variable: its dimension names, its attribute mapping (name,
value), its data as the list of layers along the leftmost axis, and
whether fetching its full data (var[:]) yields a numpy MaskedArray. -/
structure NCVariable where
  dimensions : List String
  attrs : List (String × String)
  data : List Layer
  fullIsMasked : Bool
deriving DecidableEq

/-- Result of evaluating one nchelpers property on a file: either the
evaluation raises (with the stringified error) or it yields a value,
recorded by its Python truthiness and its str() rendering. -/
inductive PropResult where
  | raises (msg : String)
  | value (truthy : Bool) (text : String)
deriving DecidableEq

/-- An open NetCDF file handle (nchelpers.CFDataset): file-level attribute
mapping, variable mapping in iteration order, dimension names in iteration
order, and the two nchelpers properties probed by cant_generate_climos. -/
structure NCFile where
  globalAttrs : List (String × String)
  vars : List (String × NCVariable)
  dimensions : List String
  time_var : PropResult
  cmor_filename : PropResult
deriving DecidableEq

/-- Python hasattr(nc, a) on a file handle: the file-level attribute
mapping contains the key a. Only presence is consulted, never the value. -/
def hasattr (nc : NCFile) (a : String) : Bool :=
  nc.globalAttrs.any (fun p => p.1 == a)

/-- Python hasattr(var, a) on a variable. -/
def varHasattr (v : NCVariable) (a : String) : Bool :=
  v.attrs.any (fun p => p.1 == a)

/-- Dictionary lookup nc.vars[name]; none models a KeyError. -/
def lookupVar (nc : NCFile) (name : String) : Option NCVariable :=
  (nc.vars.find? (fun p => p.1 == name)).map (fun p => p.2)

/-- isinstance(one_layer, numpy.ma.MaskedArray) and one_layer.mask.all():
a plain array is not a MaskedArray; a MaskedArray is fully masked when
every mask entry is true (vacuously for an empty slice, as numpy's
all() on an empty array is True). -/
def fullyMasked : Layer → Bool
  | Layer.plain => false
  | Layer.masked m => m.all (fun b => b)

/-- The body of layer_one_missing iterating over nc.vars.items():
variables with fewer than 3 dimensions are skipped; otherwise
var_[1,:,:] is taken (none models the IndexError when the leftmost axis
has fewer than 2 entries) and tested; true is returned at the first
fully masked MaskedArray slice, false after the last variable. -/
def layerOneMissingVars : List NCVariable → Option Bool
  | [] => some false
  | v :: vs =>
    if v.dimensions.length < 3 then layerOneMissingVars vs
    else
      match v.data[1]? with
      | none => none
      | some l => if fullyMasked l then some true else layerOneMissingVars vs

/-- Checks an open NetCDF file for a missing layer at t=1. -/
def layer_one_missing (nc : NCFile) : Option Bool :=
  layerOneMissingVars (nc.vars.map (fun p => p.2))

/-- Returns True if any variable is not attributed with units. -/
def vars_missing_units (nc : NCFile) : Bool :=
  nc.vars.any (fun p => !(varHasattr p.2 "units"))

/-- Returns True if the time variable is missing units attribute. -/
def missing_time_units (nc : NCFile) : Bool :=
  match lookupVar nc "time" with
  | some v => !(varHasattr v "units")
  | none => true

/-- Returns a list of all global attributes in array attrs that are
missing from NetCDF file nc. -/
def missing_global_attrs (nc : NCFile) (attrs : List String) : List String :=
  attrs.filter (fun attr => !(hasattr nc attr))

def cmip5_table : List String :=
  ["branch_time", "contact", "Conventions", "creation_date", "experiment",
   "experiment_id", "forcing", "frequency", "initialization_method",
   "institute_id", "institution", "model_id", "modeling_realm",
   "parent_experiment_id", "parent_experiment_rip", "physics_version",
   "product", "project_id", "realization", "source", "table_id",
   "tracking_id"]

/-- Checks if any required CMIP5 output global attribute is missing. -/
def missing_cmip5_global_attrs (nc : NCFile) : List String :=
  missing_global_attrs nc cmip5_table

def cf_table : List String :=
  ["title", "institution", "source", "history", "references", "comment"]

/-- Checks if any CF Metadata Convention global attribute is missing. -/
def missing_cf_global_attrs (nc : NCFile) : List String :=
  missing_global_attrs nc cf_table

def summary_gcm_mandatory_global_attrs : List String :=
  ["experiment", "experiment_id", "initialization_method", "institute_id",
   "institution", "model_id", "physics_version", "realization"]

def summary_gcm_optional_global_attrs : List String :=
  ["forcing", "frequency", "tracking_id"]

def gridded_dataset_mandatory_global_attrs : List String :=
  ["contact", "dataset", "dataset_id", "institute_id", "institution",
   "references", "version"]

def gridded_dataset_optional_global_attrs : List String :=
  ["frequency"]

def downscaling_specific_mandatory_global_attrs : List String :=
  summary_gcm_mandatory_global_attrs.map (fun attr => "driving_" ++ attr) ++
  gridded_dataset_mandatory_global_attrs.map (fun attr => "target_" ++ attr) ++
  ["downscaling_method", "downscaling_method_id", "downscaling_package_id"]

def downscaling_specific_optional_global_attrs : List String :=
  summary_gcm_optional_global_attrs.map (fun attr => "driving_" ++ attr) ++
  gridded_dataset_optional_global_attrs.map (fun attr => "target_" ++ attr)

def model_forcing_observational_mandatory_global_attrs : List String :=
  gridded_dataset_mandatory_global_attrs.map (fun attr => "forcing_obs_" ++ attr)

def model_forcing_observational_optional_global_attrs : List String :=
  gridded_dataset_optional_global_attrs.map (fun attr => "forcing_obs_" ++ attr)

def model_forcing_downscaled_gcm_mandatory_global_attrs : List String :=
  downscaling_specific_mandatory_global_attrs.map (fun attr => "forcing_" ++ attr)

def model_forcing_downscaled_gcm_optional_global_attrs : List String :=
  downscaling_specific_optional_global_attrs.map (fun attr => "forcing_" ++ attr)

def model_calibration_mandatory_global_attrs : List String :=
  gridded_dataset_mandatory_global_attrs.map (fun attr => "calibration_" ++ attr)

def model_calibration_optional_global_attrs : List String :=
  gridded_dataset_optional_global_attrs.map (fun attr => "calibration_" ++ attr)

def hydromodel_specific_mandatory_global_attrs : List String :=
  ["domain", "hydromodel_method", "hydromodel_method_id",
   "hydromodel_version", "hydromodel_resolution", "hydromodel_type"]

def hydromodel_specific_optional_global_attrs : List String :=
  ["hydromodel_settings"]

def pcic_common_table : List String :=
  ["contact", "Conventions", "creation_date", "frequency", "institute_id",
   "institution", "modeling_realm", "product", "project_id", "table_id",
   "title"]

/-- Checks if any mandatory global attribute common to all PCIC data
files is missing (Table A). -/
def missing_pcic_common_mandatory_global_attrs (nc : NCFile) : List String :=
  missing_global_attrs nc pcic_common_table

/-- Checks if any mandatory global metadata attribute describing
downscaling is missing (Table B). -/
def missing_downscaling_specific_mandatory_global_attrs (nc : NCFile) : List String :=
  missing_global_attrs nc downscaling_specific_mandatory_global_attrs

/-- Checks if any mandatory global metadata attribute for downscaled
model products is missing (Tables A and B). -/
def missing_downscaling_mandatory_global_attrs (nc : NCFile) : List String :=
  missing_pcic_common_mandatory_global_attrs nc ++
  missing_downscaling_specific_mandatory_global_attrs nc

/-- Checks if any optional global metadata attribute for a downscaled
output file is missing (Tables A and B). -/
def missing_downscaling_optional_global_attrs (nc : NCFile) : List String :=
  missing_global_attrs nc
    (downscaling_specific_optional_global_attrs ++ ["domain", "tracking_id"])

/-- Checks if any mandatory OR optional global metadata attribute for
downscaled model products is missing (Tables A and B). -/
def missing_downscaling_any_global_attrs (nc : NCFile) : List String :=
  missing_downscaling_mandatory_global_attrs nc ++
  missing_downscaling_optional_global_attrs nc

/-- Checks if any mandatory global metadata attribute describing general
model forcing is missing (Table C1). -/
def missing_model_forcing_general_mandatory_attrs (nc : NCFile) : List String :=
  missing_global_attrs nc ["forcing_type"]

/-- Checks if any optional global metadata attribute describing general
model forcing is missing (Table C1). -/
def missing_model_forcing_general_optional_attrs (nc : NCFile) : List String :=
  missing_global_attrs nc ["forcing_domain"]

/-- Checks if any mandatory global metadata attribute describing model
forcing by observational data is missing (Table C2). -/
def missing_model_forcing_observational_mandatory_attrs (nc : NCFile) : List String :=
  missing_global_attrs nc model_forcing_observational_mandatory_global_attrs

/-- Checks if any optional global metadata attribute describing model
forcing by observational data is missing (Table C2). -/
def missing_model_forcing_observational_optional_attrs (nc : NCFile) : List String :=
  missing_global_attrs nc model_forcing_observational_optional_global_attrs

/-- Checks if any mandatory global metadata attribute describing model
forcing by downscaled gcm data is missing (Table C3). -/
def missing_model_forcing_downscaled_gcm_mandatory_attrs (nc : NCFile) : List String :=
  missing_global_attrs nc model_forcing_downscaled_gcm_mandatory_global_attrs

/-- Checks if any optional global metadata attribute describing model
forcing by downscaled gcm data is missing (Table C3). -/
def missing_model_forcing_downscaled_gcm_optional_attrs (nc : NCFile) : List String :=
  missing_global_attrs nc model_forcing_downscaled_gcm_optional_global_attrs

/-- Checks if any mandatory global metadata attribute describing model
calibration dataset is missing (Table D). -/
def missing_calibration_mandatory_attrs (nc : NCFile) : List String :=
  missing_global_attrs nc model_calibration_mandatory_global_attrs

/-- Checks if any optional global metadata attribute describing model
calibration dataset is missing (Table D). -/
def missing_model_calibration_optional_attrs (nc : NCFile) : List String :=
  missing_global_attrs nc model_calibration_optional_global_attrs

/-- Checks if any mandatory global metadata attribute specific to
hydrological models is missing (Table E). -/
def missing_hydromodel_specific_mandatory_global_attrs (nc : NCFile) : List String :=
  missing_global_attrs nc hydromodel_specific_mandatory_global_attrs

/-- Checks if any optional global metadata attribute specific to
hydrological models is missing (Table E). -/
def missing_hydromodel_specific_optional_global_attrs (nc : NCFile) : List String :=
  missing_global_attrs nc hydromodel_specific_optional_global_attrs

/-- All attributes needed for an output file from a hydromodel forced by
observations (Tables A, C1, C2, D, E). -/
def missing_hydromodel_obs_mandatory_global_attrs (nc : NCFile) : List String :=
  missing_pcic_common_mandatory_global_attrs nc ++
  missing_model_forcing_general_mandatory_attrs nc ++
  missing_model_forcing_observational_mandatory_attrs nc ++
  missing_calibration_mandatory_attrs nc ++
  missing_hydromodel_specific_mandatory_global_attrs nc

/-- All attributes needed for an output file from a hydromodel forced by
a downscaled GCM (Tables A, C1, C3, D, E). -/
def missing_hydromodel_gcm_mandatory_global_attrs (nc : NCFile) : List String :=
  missing_pcic_common_mandatory_global_attrs nc ++
  missing_model_forcing_general_mandatory_attrs nc ++
  missing_model_forcing_downscaled_gcm_mandatory_attrs nc ++
  missing_calibration_mandatory_attrs nc ++
  missing_hydromodel_specific_mandatory_global_attrs nc

/-- getattr(nc, name) for the nchelpers properties that generate_climos
needs; only the two names of the probed list are reached. -/
def ncProp (nc : NCFile) : String → PropResult
  | "time_var" => nc.time_var
  | "cmor_filename" => nc.cmor_filename
  | _ => PropResult.raises "AttributeError"

/-- The property names cant_generate_climos probes, in declared order. -/
def climosProps : List String := ["time_var", "cmor_filename"]

/-- The loop of cant_generate_climos: try each property in order; a
raised exception is caught and returned as (name, str(e)); a falsy value
is returned as (name, Falsy value message); otherwise continue. none
models the final return False (pass). -/
def cantGenerateClimosAux (nc : NCFile) : List String → Option (String × String)
  | [] => none
  | n :: ns =>
    match ncProp nc n with
    | PropResult.raises e => some (n, e)
    | PropResult.value t s =>
      if t then cantGenerateClimosAux nc ns
      else some (n, "Falsy value: " ++ s)

/-- Checks to see if the generate_climos script will fail due to
metadata when run. -/
def cant_generate_climos (nc : NCFile) : Option (String × String) :=
  cantGenerateClimosAux nc climosProps

/-- The list comprehension of has_masked_dimensions: for each dimension
name, nc.vars[dim][:] is fetched (none models the KeyError when a
dimension has no coordinate variable) and the name is kept when the
fetched data is a MaskedArray. -/
def hasMaskedDimensionsAux (nc : NCFile) : List String → Option (List String)
  | [] => some []
  | d :: ds =>
    match lookupVar nc d with
    | none => none
    | some v =>
      match hasMaskedDimensionsAux nc ds with
      | none => none
      | some rest => some (if v.fullIsMasked then d :: rest else rest)

/-- Checks for any dimension variables that have masked values; returns
the names of each such dimension variable. -/
def has_masked_dimensions (nc : NCFile) : Option (List String) :=
  hasMaskedDimensionsAux nc nc.dimensions

/-- The registry: check names in registration (decoration) order, as
accumulated in check_list by the is_a_check decorator. -/
def check_list : List String :=
  ["layer_one_missing",
   "vars_missing_units",
   "missing_time_units",
   "missing_cmip5_global_attrs",
   "missing_cf_global_attrs",
   "missing_pcic_common_mandatory_global_attrs",
   "missing_downscaling_specific_mandatory_global_attrs",
   "missing_downscaling_mandatory_global_attrs",
   "missing_downscaling_optional_global_attrs",
   "missing_downscaling_any_global_attrs",
   "missing_model_forcing_general_mandatory_attrs",
   "missing_model_forcing_general_optional_attrs",
   "missing_model_forcing_observational_mandatory_attrs",
   "missing_model_forcing_observational_optional_attrs",
   "missing_model_forcing_downscaled_gcm_mandatory_attrs",
   "missing_model_forcing_downscaled_gcm_optional_attrs",
   "missing_calibration_mandatory_attrs",
   "missing_model_calibration_optional_attrs",
   "missing_hydromodel_specific_mandatory_global_attrs",
   "missing_hydromodel_specific_optional_global_attrs",
   "missing_hydromodel_obs_mandatory_global_attrs",
   "missing_hydromodel_gcm_mandatory_global_attrs",
   "cant_generate_climos",
   "has_masked_dimensions"]

/-- The value a check call returns, as the main loop sees it: its Python
truthiness (a truthy result means the check failed) and its str()
rendering, used by the verbose failure line. -/
structure CheckRes where
  truthy : Bool
  text : String
deriving DecidableEq

/-- A resolved check as the main loop holds it: its name (the function
attribute used in the verbose line) and its callable. -/
abbrev NamedCheck := String × (NCFile → CheckRes)

/-- The inner loop of the main block in non-verbose mode, for one file:
on the first truthy check result, print the bare file path and break;
the boolean reports whether the file failed. -/
def checkFileTerse (p : String) (nc : NCFile) : List NamedCheck → List String × Bool
  | [] => ([], false)
  | c :: cs =>
    if (c.2 nc).truthy then ([p], true) else checkFileTerse p nc cs

/-- The inner loop of the main block in verbose mode, for one file:
every check runs and every truthy result prints one
FAILED line; the boolean reports whether any check failed. -/
def checkFileVerbose (p : String) (nc : NCFile) : List NamedCheck → List String × Bool
  | [] => ([], false)
  | c :: cs =>
    let r := c.2 nc
    let rest := checkFileVerbose p nc cs
    if r.truthy then ((p ++ " FAILED " ++ c.1 ++ ": " ++ r.text) :: rest.1, true)
    else (rest.1, rest.2)

/-- The inner loop for one open file, selected by the verbose flag. -/
def checkFile (verbose : Bool) (p : String) (nc : NCFile) (checks : List NamedCheck) :
    List String × Bool :=
  if verbose then checkFileVerbose p nc checks else checkFileTerse p nc checks

/-- What the per-file loop of the main block produces: either it runs to
completion (stdout lines, paths of the files opened, the sys.exit
status), or an unhandled exception from opening a file ends the process
(stdout lines so far, paths opened so far, the error). -/
inductive RunOutcome where
  | completed (stdout : List String) (opened : List String) (exitStatus : Nat)
  | crashed (stdout : List String) (opened : List String) (errMsg : String)
deriving DecidableEq

/-- The per-file loop of the main block. Each file is opened with
nchelpers.CFDataset (an Except.error input models an open that raises);
the open is not guarded, so an error ends the loop at once. A failing
check sets exit_status to 1. -/
def processFiles (verbose : Bool) (checks : List NamedCheck) :
    List (String × Except String NCFile) → Nat → RunOutcome
  | [], status => RunOutcome.completed [] [] status
  | (_, Except.error e) :: _, _ => RunOutcome.crashed [] [] e
  | (p, Except.ok nc) :: rest, status =>
    let r := checkFile verbose p nc checks
    let status' := if r.2 then 1 else status
    match processFiles verbose checks rest status' with
    | RunOutcome.completed out op s => RunOutcome.completed (r.1 ++ out) (p :: op) s
    | RunOutcome.crashed out op e => RunOutcome.crashed (r.1 ++ out) (p :: op) e

/-- The observable behaviour of one program run: stdout and stderr
lines, the paths of files opened, an unhandled exception if one ended
the process, and the exit code (1 when an unhandled exception ends the
interpreter). -/
structure MainResult where
  stdout : List String
  stderr : List String
  opened : List String
  crash : Option String
  exitCode : Nat
deriving DecidableEq

/-- Helper for splitComma: accumulates the characters of the current
piece (reversed) and starts a new piece at each comma. -/
def splitCommaAux : List Char → List Char → List String
  | [], acc => [String.mk acc.reverse]
  | c :: cs, acc =>
    if c = ',' then String.mk acc.reverse :: splitCommaAux cs []
    else splitCommaAux cs (c :: acc)

/-- Python str.split with separator a comma, as the main block applies it
to args.checks: pieces between commas, empty pieces kept. -/
def splitComma (s : String) : List String :=
  splitCommaAux s.toList []

/-- The main block after argument parsing (the list_checks branch, which
exits before check resolution, is not taken). checksArg is the raw
--checks string, split on commas; the first name not in check_list is
reported to stderr and the process exits 1 before any file is opened.
impl stands for the globals() lookup resolving a registered name to its
function. -/
def main (impl : String → NCFile → CheckRes) (checksArg : String) (verbose : Bool)
    (files : List (String × Except String NCFile)) : MainResult :=
  let names := splitComma checksArg
  match names.find? (fun n => !(check_list.contains n)) with
  | some bad =>
    { stdout := [], stderr := ["NetCDF check '" ++ bad ++ "' does not exist"],
      opened := [], crash := none, exitCode := 1 }
  | none =>
    match processFiles verbose (names.map (fun n => (n, impl n))) files 0 with
    | RunOutcome.completed out op s =>
      { stdout := out, stderr := [], opened := op, crash := none, exitCode := s }
    | RunOutcome.crashed out op e =>
      { stdout := out, stderr := [], opened := op, crash := some e, exitCode := 1 }

/-! Theorems. -/

/-- C3: for every attribute mapping and every list of required names,
missing_global_attrs returns exactly the sublist of required names, in
the order given, whose keys are absent from the file-level attribute
mapping; membership is decided by presence alone (an attribute present
with any value, falsy or empty included, counts as present and its value
is never inspected), and an empty required list always yields the empty
result. -/
theorem missing_global_attrs_spec (nc : NCFile) (attrs : List String) :
    (missing_global_attrs nc attrs).Sublist attrs
    ∧ (∀ a, a ∈ missing_global_attrs nc attrs ↔ a ∈ attrs ∧ hasattr nc a = false)
    ∧ (∀ a v, (a, v) ∈ nc.globalAttrs → a ∉ missing_global_attrs nc attrs)
    ∧ (∀ nc2 : NCFile, (∀ a, hasattr nc a = hasattr nc2 a) →
        missing_global_attrs nc attrs = missing_global_attrs nc2 attrs)
    ∧ missing_global_attrs nc [] = [] := by
  refine ⟨List.filter_sublist attrs, ?_, ?_, ?_, rfl⟩
  · intro a
    simp [missing_global_attrs, List.mem_filter]
  · intro a v hv hmem
    have : hasattr nc a = true := by
      simp only [hasattr, List.any_eq_true]
      exact ⟨(a, v), hv, by simp⟩
    simp [missing_global_attrs, List.mem_filter, this] at hmem
  · intro nc2 h
    exact List.filter_congr (fun a _ => by rw [h a])

/-- C9: for all required-name lists A and B with A a subset of B and any
attribute mapping, if missing_global_attrs on B is empty then
missing_global_attrs on A is empty as well: a file satisfying a superset
of requirements satisfies every subset. -/
theorem missing_global_attrs_subset_spec (nc : NCFile) (A B : List String)
    (hAB : ∀ a ∈ A, a ∈ B) (hB : missing_global_attrs nc B = []) :
    missing_global_attrs nc A = [] := by
  rw [missing_global_attrs, List.filter_eq_nil_iff]
  rw [missing_global_attrs, List.filter_eq_nil_iff] at hB
  intro a ha
  exact hB a (hAB a ha)

/-- A file carrying both attributes of the C9 witness superset. -/
def exFileC9 : NCFile :=
  { globalAttrs := [("contact", "csg@uvic.ca"), ("title", "Downscaled tasmax")],
    vars := [], dimensions := [],
    time_var := PropResult.value true "time",
    cmor_filename := PropResult.value true "tasmax_file.nc" }

/-- C9 witness: the subset theorem applied at a concrete file satisfying
the two-attribute superset, with subset the single attribute contact. -/
theorem missing_global_attrs_subset_spec_witness :
    missing_global_attrs exFileC9 ["contact"] = [] :=
  missing_global_attrs_subset_spec exFileC9 ["contact"] ["contact", "title"]
    (by decide) (by decide)

/-- C2: every accumulating composite check returns exactly the
concatenation, in component declaration order, of the missing-attribute
lists of its components, every component being evaluated; consequently
the result length equals the sum of the component result lengths (in
particular when the component attribute tables are pairwise disjoint)
and is never less than any single component result length. Stated for
all four accumulating composites of the catalog. -/
theorem accumulating_composites_spec (nc : NCFile) :
    (missing_downscaling_mandatory_global_attrs nc =
       missing_pcic_common_mandatory_global_attrs nc ++
       missing_downscaling_specific_mandatory_global_attrs nc)
    ∧ (missing_downscaling_any_global_attrs nc =
       missing_downscaling_mandatory_global_attrs nc ++
       missing_downscaling_optional_global_attrs nc)
    ∧ (missing_hydromodel_obs_mandatory_global_attrs nc =
       missing_pcic_common_mandatory_global_attrs nc ++
       missing_model_forcing_general_mandatory_attrs nc ++
       missing_model_forcing_observational_mandatory_attrs nc ++
       missing_calibration_mandatory_attrs nc ++
       missing_hydromodel_specific_mandatory_global_attrs nc)
    ∧ (missing_hydromodel_gcm_mandatory_global_attrs nc =
       missing_pcic_common_mandatory_global_attrs nc ++
       missing_model_forcing_general_mandatory_attrs nc ++
       missing_model_forcing_downscaled_gcm_mandatory_attrs nc ++
       missing_calibration_mandatory_attrs nc ++
       missing_hydromodel_specific_mandatory_global_attrs nc)
    ∧ ((missing_downscaling_mandatory_global_attrs nc).length =
       (missing_pcic_common_mandatory_global_attrs nc).length +
       (missing_downscaling_specific_mandatory_global_attrs nc).length)
    ∧ ((missing_downscaling_any_global_attrs nc).length =
       (missing_downscaling_mandatory_global_attrs nc).length +
       (missing_downscaling_optional_global_attrs nc).length)
    ∧ ((missing_hydromodel_obs_mandatory_global_attrs nc).length =
       (missing_pcic_common_mandatory_global_attrs nc).length +
       (missing_model_forcing_general_mandatory_attrs nc).length +
       (missing_model_forcing_observational_mandatory_attrs nc).length +
       (missing_calibration_mandatory_attrs nc).length +
       (missing_hydromodel_specific_mandatory_global_attrs nc).length)
    ∧ ((missing_hydromodel_gcm_mandatory_global_attrs nc).length =
       (missing_pcic_common_mandatory_global_attrs nc).length +
       (missing_model_forcing_general_mandatory_attrs nc).length +
       (missing_model_forcing_downscaled_gcm_mandatory_attrs nc).length +
       (missing_calibration_mandatory_attrs nc).length +
       (missing_hydromodel_specific_mandatory_global_attrs nc).length)
    ∧ ((missing_pcic_common_mandatory_global_attrs nc).length ≤
       (missing_downscaling_mandatory_global_attrs nc).length)
    ∧ ((missing_downscaling_specific_mandatory_global_attrs nc).length ≤
       (missing_downscaling_mandatory_global_attrs nc).length)
    ∧ ((missing_pcic_common_mandatory_global_attrs nc).length ≤
       (missing_hydromodel_gcm_mandatory_global_attrs nc).length)
    ∧ ((missing_model_forcing_general_mandatory_attrs nc).length ≤
       (missing_hydromodel_gcm_mandatory_global_attrs nc).length)
    ∧ ((missing_model_forcing_downscaled_gcm_mandatory_attrs nc).length ≤
       (missing_hydromodel_gcm_mandatory_global_attrs nc).length)
    ∧ ((missing_calibration_mandatory_attrs nc).length ≤
       (missing_hydromodel_gcm_mandatory_global_attrs nc).length)
    ∧ ((missing_hydromodel_specific_mandatory_global_attrs nc).length ≤
       (missing_hydromodel_gcm_mandatory_global_attrs nc).length) := by
  refine ⟨rfl, rfl, ?_, ?_, ?_, ?_, ?_, ?_, ?_, ?_, ?_, ?_, ?_, ?_, ?_⟩ <;>
    simp [missing_hydromodel_obs_mandatory_global_attrs,
      missing_hydromodel_gcm_mandatory_global_attrs,
      missing_downscaling_mandatory_global_attrs,
      missing_downscaling_any_global_attrs,
      List.append_assoc, List.length_append] <;> omega

/-- The test the body of layer_one_missing applies to one variable that
is not skipped: the slice at index 1 along the leftmost axis, when it
exists, is a fully masked MaskedArray. -/
def fullyMaskedAt1 (v : NCVariable) : Bool :=
  match v.data[1]? with
  | some l => fullyMasked l
  | none => false

theorem layerOneMissingVars_any (vs : List NCVariable)
    (h : ∀ v ∈ vs, 3 ≤ v.dimensions.length → 2 ≤ v.data.length) :
    layerOneMissingVars vs =
      some (vs.any (fun v => decide (3 ≤ v.dimensions.length) && fullyMaskedAt1 v)) := by
  induction vs with
  | nil => rfl
  | cons v vs ih =>
    have htail : ∀ u ∈ vs, 3 ≤ u.dimensions.length → 2 ≤ u.data.length :=
      fun u hu => h u (List.mem_cons_of_mem _ hu)
    by_cases hd : v.dimensions.length < 3
    · have hdec : decide (3 ≤ v.dimensions.length) = false := by
        simp only [decide_eq_false_iff_not]
        omega
      simp [layerOneMissingVars, hd, hdec, ih htail]
    · have h3 : 3 ≤ v.dimensions.length := by omega
      have h2 : 2 ≤ v.data.length := h v (List.mem_cons_self _ _) h3
      obtain ⟨l, hl⟩ : ∃ l, v.data[1]? = some l := by
        cases hgl : v.data[1]? with
        | none => exact absurd (List.getElem?_eq_none_iff.mp hgl) (by omega)
        | some l => exact ⟨l, rfl⟩
      have hdec : decide (3 ≤ v.dimensions.length) = true := by
        simpa using h3
      by_cases hm : fullyMasked l = true
      · simp [layerOneMissingVars, hd, hl, hm, hdec, fullyMaskedAt1]
      · simp [layerOneMissingVars, hd, hl, hm, hdec, fullyMaskedAt1, ih htail]

/-- C4: under the precondition that every variable with at least 3
dimensions has at least 2 entries along its leftmost axis,
layer_one_missing returns true iff, scanning variables in iteration
order and skipping every variable with fewer than 3 dimensions, some
remaining variable has its index-1 slice along the leftmost axis be a
fully masked MaskedArray; it stops at the first such variable (the tail
is never consulted once one is found), and a file with no such variable
returns false. -/
theorem layer_one_missing_spec (nc : NCFile)
    (h : ∀ v ∈ nc.vars.map (fun p => p.2), 3 ≤ v.dimensions.length → 2 ≤ v.data.length) :
    layer_one_missing nc =
      some ((nc.vars.map (fun p => p.2)).any
        (fun v => decide (3 ≤ v.dimensions.length) && fullyMaskedAt1 v))
    ∧ (∀ (v : NCVariable) (vs : List NCVariable),
        3 ≤ v.dimensions.length → fullyMaskedAt1 v = true →
        layerOneMissingVars (v :: vs) = some true) := by
  constructor
  · exact layerOneMissingVars_any _ h
  · intro v vs h3 hm
    have hd : ¬ v.dimensions.length < 3 := by omega
    simp only [fullyMaskedAt1] at hm
    cases hgl : v.data[1]? with
    | none => rw [hgl] at hm; simp at hm
    | some l =>
      rw [hgl] at hm
      simp only at hm
      simp [layerOneMissingVars, hd, hgl, hm]

/-- A 3-dimensional grid variable whose slice at index 1 along the
leftmost axis is a fully masked MaskedArray. -/
def exVarC4 : NCVariable :=
  { dimensions := ["time", "lat", "lon"], attrs := [("units", "K")],
    data := [Layer.plain, Layer.masked [true, true, true, true]],
    fullIsMasked := false }

/-- A file whose only variable is exVarC4. -/
def exFileC4 : NCFile :=
  { globalAttrs := [], vars := [("tasmax", exVarC4)],
    dimensions := ["time", "lat", "lon"],
    time_var := PropResult.value true "time",
    cmor_filename := PropResult.value true "tasmax_file.nc" }

/-- C4 witness: the characterization applied at a concrete file whose
single 3-dimensional variable has a fully masked layer at index 1. -/
theorem layer_one_missing_spec_witness :
    layer_one_missing exFileC4 = some true := by
  have h := (layer_one_missing_spec exFileC4 (by decide)).1
  rw [h]
  decide

/-- A 3-dimensional variable, two layers, fully masked at index 1. -/
def exVarMaskedC10 : NCVariable :=
  { dimensions := ["time", "lat", "lon"], attrs := [],
    data := [Layer.masked [true], Layer.masked [true, true]],
    fullIsMasked := false }

/-- A 3-dimensional variable with a single entry along the leftmost
axis: indexing position 1 of its first axis raises IndexError. -/
def exVarShortC10 : NCVariable :=
  { dimensions := ["time", "lat", "lon"], attrs := [],
    data := [Layer.plain], fullIsMasked := false }

/-- A file holding the fully masked variable first and the short-axis
variable after it. -/
def exFileC10 : NCFile :=
  { globalAttrs := [], vars := [("pr", exVarMaskedC10), ("tas", exVarShortC10)],
    dimensions := [], time_var := PropResult.value true "time",
    cmor_filename := PropResult.value true "pr_file.nc" }

/-- C10 counterexample: a file containing a variable of 3 dimensions
whose leftmost axis has fewer than 2 entries can still receive a
verdict, because an earlier fully masked variable returns true before
the short variable is ever indexed; so the claim that such a file never
receives a verdict is false at this input. -/
theorem layer_one_short_axis_cex :
    3 ≤ exVarShortC10.dimensions.length ∧ exVarShortC10.data.length < 2
    ∧ layer_one_missing exFileC10 = some true := by
  decide

/-- C10 amended: layer_one_missing always produces a verdict under the
precondition that every variable with 3 or more dimensions has at least
2 entries along its leftmost axis; and when the first variable with 3 or
more dimensions in iteration order has fewer than 2 entries along that
axis (no earlier variable can trigger the fully-masked early return),
the unconditional indexing of position 1 is out of range and no verdict
is returned. -/
theorem layer_one_missing_totality :
    (∀ nc : NCFile,
      (∀ v ∈ nc.vars.map (fun p => p.2), 3 ≤ v.dimensions.length → 2 ≤ v.data.length) →
      (layer_one_missing nc).isSome = true)
    ∧ (∀ (pre : List NCVariable) (v : NCVariable) (post : List NCVariable),
        (∀ u ∈ pre, u.dimensions.length < 3) →
        3 ≤ v.dimensions.length → v.data.length < 2 →
        layerOneMissingVars (pre ++ v :: post) = none) := by
  constructor
  · intro nc h
    rw [layer_one_missing, layerOneMissingVars_any _ h]
    rfl
  · intro pre v post hpre h3 hlen
    induction pre with
    | nil =>
      have hd : ¬ v.dimensions.length < 3 := by omega
      have hg : v.data[1]? = none := List.getElem?_eq_none (by omega)
      simp [layerOneMissingVars, hd, hg]
    | cons u pre ih =>
      have hu : u.dimensions.length < 3 := hpre u (List.mem_cons_self _ _)
      simp [layerOneMissingVars, hu,
        ih (fun w hw => hpre w (List.mem_cons_of_mem _ hw))]

/-- Python truthiness of an nchelpers property evaluation: a raised
exception is not a value at all, a value is truthy per its flag. -/
def propTruthy : PropResult → Bool
  | PropResult.raises _ => false
  | PropResult.value t _ => t

/-- C7: cant_generate_climos probes time_var then cmor_filename in that
order; a property whose evaluation raises yields the pair of the
property name and the stringified error, a property evaluating to a
falsy value yields the pair of the name and the Falsy value message;
evaluation stops at the first failing property (the second property is
arbitrary when the first fails), no exception propagates out (the result
is always a plain value of the result type), and the check passes (the
Python return False, modelled none) exactly when both probed properties
evaluate to truthy values. -/
theorem cant_generate_climos_spec (nc : NCFile) :
    (∀ e, nc.time_var = PropResult.raises e →
        cant_generate_climos nc = some ("time_var", e))
    ∧ (∀ s, nc.time_var = PropResult.value false s →
        cant_generate_climos nc = some ("time_var", "Falsy value: " ++ s))
    ∧ (∀ s e, nc.time_var = PropResult.value true s →
        nc.cmor_filename = PropResult.raises e →
        cant_generate_climos nc = some ("cmor_filename", e))
    ∧ (∀ s s2, nc.time_var = PropResult.value true s →
        nc.cmor_filename = PropResult.value false s2 →
        cant_generate_climos nc = some ("cmor_filename", "Falsy value: " ++ s2))
    ∧ (cant_generate_climos nc = none ↔
        propTruthy nc.time_var = true ∧ propTruthy nc.cmor_filename = true) := by
  have h1 : ncProp nc "time_var" = nc.time_var := rfl
  have h2 : ncProp nc "cmor_filename" = nc.cmor_filename := rfl
  refine ⟨?_, ?_, ?_, ?_, ?_⟩
  · intro e he
    simp [cant_generate_climos, cantGenerateClimosAux, climosProps, h1, he]
  · intro s hs
    simp [cant_generate_climos, cantGenerateClimosAux, climosProps, h1, hs]
  · intro s e hs he
    simp [cant_generate_climos, cantGenerateClimosAux, climosProps, h1, h2, hs, he]
  · intro s s2 hs hs2
    simp [cant_generate_climos, cantGenerateClimosAux, climosProps, h1, h2, hs, hs2]
  · cases ht : nc.time_var with
    | raises e =>
      simp [cant_generate_climos, cantGenerateClimosAux, climosProps, h1, ht, propTruthy]
    | value t s =>
      cases t with
      | false =>
        simp [cant_generate_climos, cantGenerateClimosAux, climosProps, h1, ht, propTruthy]
      | true =>
        cases hc : nc.cmor_filename with
        | raises e =>
          simp [cant_generate_climos, cantGenerateClimosAux, climosProps,
            h1, h2, ht, hc, propTruthy]
        | value t2 s2 =>
          cases t2 <;>
            simp [cant_generate_climos, cantGenerateClimosAux, climosProps,
              h1, h2, ht, hc, propTruthy]

/-- The membership test of has_masked_dimensions for one dimension name:
the coordinate variable exists and its full data is a MaskedArray. -/
def dimIsMasked (nc : NCFile) (d : String) : Bool :=
  match lookupVar nc d with
  | some v => v.fullIsMasked
  | none => false

theorem hasMaskedDimensionsAux_eq (nc : NCFile) (ds : List String)
    (h : ∀ d ∈ ds, (lookupVar nc d).isSome = true) :
    hasMaskedDimensionsAux nc ds = some (ds.filter (fun d => dimIsMasked nc d)) := by
  induction ds with
  | nil => rfl
  | cons d ds ih =>
    obtain ⟨v, hv⟩ : ∃ v, lookupVar nc d = some v :=
      Option.isSome_iff_exists.mp (h d (List.mem_cons_self _ _))
    have htail := ih (fun w hw => h w (List.mem_cons_of_mem _ hw))
    by_cases hm : v.fullIsMasked = true
    · simp [hasMaskedDimensionsAux, hv, htail, List.filter_cons, dimIsMasked, hm]
    · simp [hasMaskedDimensionsAux, hv, htail, List.filter_cons, dimIsMasked, hm]

/-- C8: when every dimension has a coordinate variable,
has_masked_dimensions returns the list of dimension names, in the file
dimension iteration order, whose coordinate variable full data is a
MaskedArray (a type-level test); a dimension whose coordinate data is
not a MaskedArray is absent, and the result is empty exactly when no
dimension qualifies. -/
theorem has_masked_dimensions_spec (nc : NCFile)
    (h : ∀ d ∈ nc.dimensions, (lookupVar nc d).isSome = true) :
    has_masked_dimensions nc = some (nc.dimensions.filter (fun d => dimIsMasked nc d))
    ∧ (∀ d, d ∈ nc.dimensions.filter (fun d => dimIsMasked nc d) ↔
        d ∈ nc.dimensions ∧ dimIsMasked nc d = true)
    ∧ (nc.dimensions.filter (fun d => dimIsMasked nc d) = [] ↔
        ∀ d ∈ nc.dimensions, dimIsMasked nc d = false) := by
  refine ⟨hasMaskedDimensionsAux_eq nc nc.dimensions h, ?_, ?_⟩
  · intro d
    exact List.mem_filter
  · rw [List.filter_eq_nil_iff]
    constructor
    · intro hall d hd
      have := hall d hd
      simpa using this
    · intro hall d hd
      simp [hall d hd]

/-- A time coordinate variable whose full data is a MaskedArray. -/
def exVarTimeMasked : NCVariable :=
  { dimensions := ["time"], attrs := [("units", "days since 1950-01-01")],
    data := [Layer.masked [true]], fullIsMasked := true }

/-- A lat coordinate variable whose full data is a plain ndarray. -/
def exVarLatPlain : NCVariable :=
  { dimensions := ["lat"], attrs := [], data := [Layer.plain],
    fullIsMasked := false }

/-- A file with dimensions time and lat, time coordinate masked. -/
def exFileC8 : NCFile :=
  { globalAttrs := [],
    vars := [("time", exVarTimeMasked), ("lat", exVarLatPlain)],
    dimensions := ["time", "lat"],
    time_var := PropResult.value true "time",
    cmor_filename := PropResult.value true "pr_file.nc" }

/-- C8 witness: at a concrete file the masked time dimension is
reported and the unmasked lat dimension is not. -/
theorem has_masked_dimensions_spec_witness :
    has_masked_dimensions exFileC8 = some ["time"] := by
  have h := (has_masked_dimensions_spec exFileC8 (by decide)).1
  rw [h]
  decide

theorem checkFileTerse_eq (p : String) (nc : NCFile) (cs : List NamedCheck) :
    checkFileTerse p nc cs =
      (if cs.any (fun c => (c.2 nc).truthy) then [p] else [],
       cs.any (fun c => (c.2 nc).truthy)) := by
  induction cs with
  | nil => rfl
  | cons c cs ih =>
    cases hc : (c.2 nc).truthy
    · simp only [checkFileTerse, hc, ih, List.any_cons, Bool.false_or, if_neg]
      simp
    · simp [checkFileTerse, hc]

theorem checkFileVerbose_eq (p : String) (nc : NCFile) (cs : List NamedCheck) :
    checkFileVerbose p nc cs =
      (cs.filterMap (fun c =>
         if (c.2 nc).truthy then
           some (p ++ " FAILED " ++ c.1 ++ ": " ++ (c.2 nc).text)
         else none),
       cs.any (fun c => (c.2 nc).truthy)) := by
  induction cs with
  | nil => rfl
  | cons c cs ih =>
    cases hc : (c.2 nc).truthy <;>
      simp [checkFileVerbose, hc, ih, List.filterMap_cons]

theorem checkFile_failed (verbose : Bool) (p : String) (nc : NCFile)
    (checks : List NamedCheck) :
    (checkFile verbose p nc checks).2 = checks.any (fun c => (c.2 nc).truthy) := by
  cases verbose <;> simp [checkFile, checkFileTerse_eq, checkFileVerbose_eq]

/-- The exit status passed to sys.exit when the per-file loop runs to
completion; none when an unhandled exception ended the process. -/
def runExitStatus : RunOutcome → Option Nat
  | RunOutcome.completed _ _ s => some s
  | RunOutcome.crashed _ _ _ => none

theorem processFiles_ok (verbose : Bool) (checks : List NamedCheck)
    (files : List (String × NCFile)) (s : Nat) :
    processFiles verbose checks (files.map (fun f => (f.1, Except.ok f.2))) s =
      RunOutcome.completed
        ((files.map (fun f => (checkFile verbose f.1 f.2 checks).1)).flatten)
        (files.map (fun f => f.1))
        (if files.any (fun f => checks.any (fun c => (c.2 f.2).truthy)) then 1 else s) := by
  induction files generalizing s with
  | nil => rfl
  | cons f fs ih =>
    have hfail := checkFile_failed verbose f.1 f.2 checks
    by_cases h1 : checks.any (fun c => (c.2 f.2).truthy) = true <;>
      by_cases h2 : fs.any (fun f => checks.any (fun c => (c.2 f.2).truthy)) = true <;>
      simp [processFiles, ih, hfail, h1, h2]

/-- C5: in non-verbose mode the requested checks run in caller order and
evaluation of a file stops at the first failing check, printing only the
bare file path; in verbose mode every requested check runs, with one
FAILED line naming the check and its detail per failure; in either mode
the run completes on files that open, every opened file is processed,
and the process exit status is 0 iff every processed file passed every
requested check. -/
theorem cli_modes_spec :
    (∀ (p : String) (nc : NCFile) (c : NamedCheck) (cs : List NamedCheck),
       checkFileTerse p nc (c :: cs) =
         if (c.2 nc).truthy then ([p], true) else checkFileTerse p nc cs)
    ∧ (∀ (p : String) (nc : NCFile) (cs : List NamedCheck),
        checkFileTerse p nc cs =
          (if cs.any (fun c => (c.2 nc).truthy) then [p] else [],
           cs.any (fun c => (c.2 nc).truthy)))
    ∧ (∀ (p : String) (nc : NCFile) (cs : List NamedCheck),
        checkFileVerbose p nc cs =
          (cs.filterMap (fun c =>
             if (c.2 nc).truthy then
               some (p ++ " FAILED " ++ c.1 ++ ": " ++ (c.2 nc).text)
             else none),
           cs.any (fun c => (c.2 nc).truthy)))
    ∧ (∀ (verbose : Bool) (checks : List NamedCheck) (files : List (String × NCFile)),
        processFiles verbose checks (files.map (fun f => (f.1, Except.ok f.2))) 0 =
          RunOutcome.completed
            ((files.map (fun f => (checkFile verbose f.1 f.2 checks).1)).flatten)
            (files.map (fun f => f.1))
            (if files.any (fun f => checks.any (fun c => (c.2 f.2).truthy)) then 1 else 0))
    ∧ (∀ (verbose : Bool) (checks : List NamedCheck) (files : List (String × NCFile)),
        runExitStatus
            (processFiles verbose checks (files.map (fun f => (f.1, Except.ok f.2))) 0) =
            some 0
          ↔ ∀ f ∈ files, ∀ c ∈ checks, (c.2 f.2).truthy = false) := by
  refine ⟨fun p nc c cs => rfl, checkFileTerse_eq, checkFileVerbose_eq,
    fun verbose checks files => processFiles_ok verbose checks files 0, ?_⟩
  intro verbose checks files
  rw [processFiles_ok]
  cases hA : files.any (fun f => checks.any (fun c => (c.2 f.2).truthy)) with
  | true =>
    rw [List.any_eq_true] at hA
    obtain ⟨f, hf, hc⟩ := hA
    rw [List.any_eq_true] at hc
    obtain ⟨c, hcm, ht⟩ := hc
    constructor
    · intro h01
      exfalso
      simp [runExitStatus] at h01
    · intro hall
      exfalso
      rw [hall f hf c hcm] at ht
      simp at ht
  | false =>
    rw [List.any_eq_false] at hA
    constructor
    · intro _ f hf c hc
      have h2 := hA f hf
      rw [Bool.not_eq_true, List.any_eq_false] at h2
      have h3 := h2 c hc
      rwa [Bool.not_eq_true] at h3
    · intro _
      rfl

/-- C6: when some name in the comma-separated checks argument is not a
registered check name, the program reports the first such name to the
error stream with the does-not-exist message and exits with code 1
before any file is opened: no stdout output, no file opened, no crash. -/
theorem unknown_check_preflight_spec (impl : String → NCFile → CheckRes)
    (checksArg : String) (verbose : Bool)
    (files : List (String × Except String NCFile)) (bad : String)
    (h : (splitComma checksArg).find? (fun n => !(check_list.contains n)) = some bad) :
    main impl checksArg verbose files =
      { stdout := [],
        stderr := ["NetCDF check '" ++ bad ++ "' does not exist"],
        opened := [], crash := none, exitCode := 1 } := by
  rw [main]
  simp only [h]

/-- A stand-in for the globals() lookup: every check passes. -/
def implStub : String → NCFile → CheckRes :=
  fun _ _ => { truthy := false, text := "False" }

/-- C6 witness: the preflight theorem applied to the concrete argument
string naming one registered check and one unknown check, with a
nonempty file list that is never opened. -/
theorem unknown_check_preflight_spec_witness :
    main implStub "layer_one_missing,bogus_check" false
        [("a.nc", Except.error "No such file or directory")] =
      { stdout := [],
        stderr := ["NetCDF check '" ++ "bogus_check" ++ "' does not exist"],
        opened := [], crash := none, exitCode := 1 } :=
  unknown_check_preflight_spec implStub "layer_one_missing,bogus_check" false
    [("a.nc", Except.error "No such file or directory")] "bogus_check" (by decide)

/-- The stdout lines the per-file loop prints for a batch of files that
all open. -/
def batchStdout (verbose : Bool) (checks : List NamedCheck)
    (files : List (String × NCFile)) : List String :=
  (files.map (fun f => (checkFile verbose f.1 f.2 checks).1)).flatten

/-- An open file with no attributes, no variables and no dimensions. -/
def exFileEmpty : NCFile :=
  { globalAttrs := [], vars := [], dimensions := [],
    time_var := PropResult.value true "time",
    cmor_filename := PropResult.value true "file.nc" }

/-- C1 counterexample: with two input files of which the first fails to
open, the run ends at the open error: the error is surfaced as an
unhandled exception, but the second file is never opened or processed,
so a per-file open error does abort the whole run. -/
theorem file_open_error_aborts_batch_cex :
    processFiles false []
        [("a.nc", Except.error "No such file or directory"),
         ("b.nc", Except.ok exFileEmpty)] 0 =
      RunOutcome.crashed [] [] "No such file or directory" := by
  rfl

/-- C1 amended: the open of each input file is not guarded, so a failing
open raises out of the per-file loop: all files before the failing one
are opened and checked normally and their output is printed, the error
is surfaced as an unhandled exception ending the process, and the files
after the failing one are never opened or processed. -/
theorem file_open_error_propagates (verbose : Bool) (checks : List NamedCheck)
    (pre : List (String × NCFile)) (p : String) (e : String)
    (rest : List (String × Except String NCFile)) (s : Nat) :
    processFiles verbose checks
        (pre.map (fun f => (f.1, Except.ok f.2)) ++ (p, Except.error e) :: rest) s =
      RunOutcome.crashed (batchStdout verbose checks pre)
        (pre.map (fun f => f.1)) e := by
  induction pre generalizing s with
  | nil => rfl
  | cons f fs ih =>
    simp [processFiles, ih, batchStdout]

end Nclint
